import Mathlib

/-!
Shallow embedding of the health-assistant backend (src/app.py).

The program is a Flask app that loads one PDF record into an in-memory
dict, assembles a prompt from the record plus a user question, POSTs it
to a generative-AI endpoint, and parses the response.  External effects
(the PDF library, the HTTP client) are modelled as explicit outcome
parameters; Python exceptions are modelled with Except; Python values
appearing in JSON positions are modelled by an inductive Json type.
-/

set_option maxRecDepth 10000

namespace HealthAssistant

/-- A parsed JSON value, as produced by response.json() or request.json.
Numbers are modelled as integers (the claims never involve floats). -/
inductive Json where
  | null : Json
  | bool (b : Bool) : Json
  | num (n : Int) : Json
  | str (s : String) : Json
  | arr (items : List Json) : Json
  | obj (fields : List (String × Json)) : Json

/-- First-match association-list lookup, modelling Python dict access
(keys coming from json.loads are unique, so first match is the match). -/
def lookupField : List (String × Json) → String → Option Json
  | [], _ => none
  | (k, v) :: rest, key => if k = key then some v else lookupField rest key

/-- Python truthiness of a parsed JSON value. -/
def Json.truthy : Json → Bool
  | .null => false
  | .bool b => b
  | .num n => n != 0
  | .str s => s != ""
  | .arr l => !l.isEmpty
  | .obj l => !l.isEmpty

/-- Whether a Json value is a Python string. -/
def Json.isStr : Json → Bool
  | .str _ => true
  | _ => false

/-- A Python exception, coarsely split the way the except clauses of
get_ai_response split them: requests.exceptions.RequestException versus
every other Exception.  The payload is the str() of the exception. -/
inductive PyExc where
  | requestException (msg : String) : PyExc
  | otherException (msg : String) : PyExc
deriving Repr, DecidableEq

/-- Python str() of a parsed JSON value, as used inside f-strings.
Containers use a simplified repr; the claims only exercise strings. -/
def pyStr : Json → String
  | .null => "None"
  | .bool true => "True"
  | .bool false => "False"
  | .num n => toString n
  | .str s => s
  | .arr _ => "[...]"
  | .obj _ => "\x7b...\x7d"

/-- Model of Python dict.get(key) on a Json value: returns the field if
the receiver is an object, raises AttributeError otherwise. -/
def Json.get1 : Json → String → Except PyExc (Option Json)
  | .obj fs, k => .ok (lookupField fs k)
  | _, _ => .error (.otherException "object has no attribute get")

/-- Model of Python dict.get(key, default) on a Json value. -/
def Json.getD2 : Json → String → Json → Except PyExc Json
  | .obj fs, k, d => .ok ((lookupField fs k).getD d)
  | _, _, _ => .error (.otherException "object has no attribute get")

/-- Model of Python subscript x[0]: first element of a list, first
character of a string, a raised exception otherwise. -/
def Json.index0 : Json → Except PyExc Json
  | .arr (x :: _) => .ok x
  | .arr [] => .error (.otherException "list index out of range")
  | .str s =>
      if s.isEmpty then .error (.otherException "string index out of range")
      else .ok (.str (String.singleton s.front))
  | .obj _ => .error (.otherException "KeyError: 0")
  | _ => .error (.otherException "object is not subscriptable")

/-- Escape one character the way json.dumps escapes string content. -/
def escChar (c : Char) : String :=
  if c = '\\' then "\\\\"
  else if c = '\"' then "\\\""
  else if c = '\n' then "\\n"
  else if c = '\t' then "\\t"
  else if c = '\r' then "\\r"
  else String.singleton c

/-- A JSON string literal as json.dumps prints it. -/
def jsonQuote (s : String) : String :=
  "\"" ++ String.join (s.data.map escChar) ++ "\""

/-- A run of n spaces. -/
def spaces (n : Nat) : String :=
  String.mk (List.replicate n ' ')

mutual

/-- Model of json.dumps(v, indent=2): ind is the indentation column of
the value's container. -/
def jsonDumps (ind : Nat) : Json → String
  | .null => "null"
  | .bool true => "true"
  | .bool false => "false"
  | .num n => toString n
  | .str s => jsonQuote s
  | .arr [] => "[]"
  | .arr (x :: xs) =>
      "[\n" ++ jsonDumpsItems (ind + 2) x xs ++ "\n" ++ spaces ind ++ "]"
  | .obj [] => "\x7b\x7d"
  | .obj (f :: fs) =>
      "\x7b\n" ++ jsonDumpsFields (ind + 2) f fs ++ "\n" ++ spaces ind ++ "\x7d"
termination_by j => sizeOf j

/-- Array items, one per line at the given indentation. -/
def jsonDumpsItems (ind : Nat) (x : Json) : List Json → String
  | [] => spaces ind ++ jsonDumps ind x
  | y :: ys => spaces ind ++ jsonDumps ind x ++ ",\n" ++ jsonDumpsItems ind y ys
termination_by l => sizeOf x + sizeOf l

/-- Object fields, one per line at the given indentation. -/
def jsonDumpsFields (ind : Nat) : String × Json → List (String × Json) → String
  | (k, v), [] => spaces ind ++ jsonQuote k ++ ": " ++ jsonDumps ind v
  | (k, v), g :: gs =>
      spaces ind ++ jsonQuote k ++ ": " ++ jsonDumps ind v ++ ",\n" ++
        jsonDumpsFields ind g gs
termination_by f l => sizeOf f + sizeOf l

end

/-! The record store: the module-level dict patient_records. -/

/-- The store maps patient identifiers to extracted record text. -/
abbrev RecordStore := List (String × String)

/-- First-match lookup in the record store. -/
def lookupStr : RecordStore → String → Option String
  | [], _ => none
  | (k, v) :: rest, key => if k = key then some v else lookupStr rest key

/-- Model of patient_records[key] = value: replace or append. -/
def storeSet : RecordStore → String → String → RecordStore
  | [], key, value => [(key, value)]
  | (k, v) :: rest, key, value =>
      if k = key then (key, value) :: rest else (k, v) :: storeSet rest key value

/-- Line 58: patient_records.get(patient_id, "No health records found."). -/
def storeGet (store : RecordStore) (patient_id : String) : String :=
  (lookupStr store patient_id).getD "No health records found."

/-- The same dict.get where the requested key is an arbitrary Python
value (handlers pass whatever the request body held); the stored keys
are strings, so a hashable non-string key never matches.  This version
totalizes the lookup: it returns the sentinel even for list/dict keys,
where Python dict.get raises TypeError (unhashable type).  The faithful
fallible lookup is storeGetPyChecked below; on every key where that one
does not raise, the two agree (storeGetPyChecked_agrees). -/
def storeGetPy (store : RecordStore) (patient_id : Json) : String :=
  match patient_id with
  | .str s => storeGet store s
  | _ => "No health records found."

/-- Whether a Python value parsed from JSON is hashable and may be used
as a dict key: lists and dicts are not, everything else here is. -/
def hashableKey : Json → Bool
  | .arr _ => false
  | .obj _ => false
  | _ => true

/-- Line 58 modelled faithfully: dict.get raises TypeError for an
unhashable (list/dict) key and otherwise returns the stored text or the
sentinel. -/
def storeGetPyChecked (store : RecordStore) (patient_id : Json) :
    Except PyExc String :=
  match patient_id with
  | .str s => .ok (storeGet store s)
  | .arr _ => .error (.otherException "unhashable type: 'list'")
  | .obj _ => .error (.otherException "unhashable type: 'dict'")
  | _ => .ok "No health records found."

/-! Prompt assembly (lines 60-87). -/

/-- The fixed note appended when the record is truncated (line 62). -/
def truncationNote : String :=
  "\n\n[Note: Record truncated for AI analysis due to size limit.]"

/-- Lines 61-62: truncate the record to 5000 characters and append the
note when it is longer than 5000 characters. -/
def truncateRecord (t : String) : String :=
  if t.length > 5000 then t.take 5000 ++ truncationNote else t

/-- The fixed text before the record in the user message (lines 79-81). -/
def recordsHeader : String := "\nPATIENT HEALTH RECORDS:\n"

/-- The fixed text between the record and the question (lines 82-84). -/
def questionHeader : String := "\n\nPATIENT QUESTION:\n"

/-- The fixed text after the question (lines 85-87). -/
def promptFooter : String :=
  "\n\nPlease analyze the records and answer the patient's question accurately and clearly.\n"

/-- Lines 79-87: the f-string building user_message from the (already
truncated) record text and the question. -/
def buildUserMessage (recordText question : String) : String :=
  recordsHeader ++ recordText ++ questionHeader ++ question ++ promptFooter

/-- The system prompt (lines 68-76), fixed text. -/
def systemPrompt : String :=
  "You are an intelligent health assistant for the Ayu-Chain AI platform.\n\nYour role:\n1. Analyze patient health records carefully\n2. Answer questions accurately based on the available data\n3. Identify potential risks or patterns in health data\n4. Be empathetic, simple, and clear in communication\n5. If data is missing or unclear, state that and suggest consulting a doctor\n"

/-- The configured endpoint URL (line 15). -/
def GEMINI_API_URL : String :=
  "https://generativelanguage.googleapis.com/v1beta/models/gemini-2.5-flash-preview-09-2025:generateContent"

/-- The URL actually posted to (line 112): endpoint plus key query parameter. -/
def requestUrl (key : String) : String :=
  GEMINI_API_URL ++ "?key=" ++ key

/-! The inference call (lines 106-146).  The network is modelled as an
explicit outcome parameter: either requests.post raises, or it yields a
response with a status code, a reason phrase, and a body that may or
may not parse as JSON. -/

/-- What the HTTP client returned for the POST. -/
structure HttpResponse where
  status : Nat
  reason : String
  jsonBody : Option Json

/-- The outcome of the requests.post call: the library either raises or
produces a response object. -/
inductive UpstreamOutcome where
  | postRaises (e : PyExc) : UpstreamOutcome
  | response (r : HttpResponse) : UpstreamOutcome

/-- Model of requests.Response.raise_for_status (line 117): raises
HTTPError, a RequestException, for every status in [400, 600). -/
def raise_for_status (url : String) (r : HttpResponse) : Except PyExc Unit :=
  if 400 ≤ r.status ∧ r.status < 500 then
    .error (.requestException
      (toString r.status ++ " Client Error: " ++ r.reason ++ " for url: " ++ url))
  else if 500 ≤ r.status ∧ r.status < 600 then
    .error (.requestException
      (toString r.status ++ " Server Error: " ++ r.reason ++ " for url: " ++ url))
  else .ok ()

/-- Model of response.json() (line 118): the parsed body, or a raised
JSONDecodeError (a RequestException in the requests library). -/
def responseJson (r : HttpResponse) : Except PyExc Json :=
  match r.jsonBody with
  | some d => .ok d
  | none => .error (.requestException "Expecting value: line 1 column 1 (char 0)")

/-- The message built on line 133 when the candidate has no usable text
part: embeds the finishReason and the re-serialized response body. -/
def noTextMsg (finish_reason data : Json) : String :=
  "No valid text found in Gemini response. Finish reason: " ++ pyStr finish_reason ++
    ". Response: " ++ jsonDumps 0 data

/-- Lines 132-133: read finishReason with default Unknown and build the
no-valid-text message. -/
def candidateFallback (candidate data : Json) : Except PyExc Json :=
  match candidate.getD2 "finishReason" (.str "Unknown") with
  | .error e => .error e
  | .ok fr => .ok (.str (noTextMsg fr data))

/-- Lines 136-140: the no-candidates path: read error.message with its
default, and prefix with the status code when it is 400. -/
def errorPath (status : Nat) (data : Json) : Except PyExc Json :=
  match data.getD2 "error" (.obj []) with
  | .error e => .error e
  | .ok errObj =>
    match errObj.getD2 "message" (.str "Unknown error or blocked content.") with
    | .error e => .error e
    | .ok msg =>
      if status = 400 then
        .ok (.str ("Gemini API Error (400): " ++ pyStr msg ++ ". Full details: " ++
          jsonDumps 0 data))
      else
        .ok (.str ("Gemini API Error: " ++ pyStr msg))

/-- Lines 125-140: extract the AI text from the parsed body, falling
back to the diagnostic strings.  The Except layer carries any Python
exception these accesses can raise on ill-shaped bodies. -/
def parseData (status : Nat) (data : Json) : Except PyExc Json :=
  match data.get1 "candidates" with
  | .error e => .error e
  | .ok none => errorPath status data
  | .ok (some c) =>
    if c.truthy then
      match c.index0 with
      | .error e => .error e
      | .ok candidate =>
        match candidate.getD2 "content" (.obj []) with
        | .error e => .error e
        | .ok content =>
          match content.getD2 "parts" (.arr []) with
          | .error e => .error e
          | .ok parts =>
            if parts.truthy then
              match parts.index0 with
              | .error e => .error e
              | .ok (.obj pfs) =>
                match lookupField pfs "text" with
                | some v => .ok v
                | none => candidateFallback candidate data
              | .ok _ => candidateFallback candidate data
            else candidateFallback candidate data
    else errorPath status data

/-- Lines 117-140 as one step: raise_for_status, then response.json(),
then the extraction logic. -/
def handleResponse (url : String) (r : HttpResponse) : Except PyExc Json :=
  match raise_for_status url r with
  | .error e => .error e
  | .ok _ =>
    match responseJson r with
    | .error e => .error e
    | .ok data => parseData r.status data

/-- The fixed missing-credential message (line 108). -/
def missingKeyMsg : String :=
  "Error: Missing GEMINI_API_KEY in your .env file."

/-- The two except clauses (lines 142-146): RequestException and then
every other Exception, each formatted into a returned string. -/
def handleExc : PyExc → String
  | .requestException m => "Error connecting to Gemini API: " ++ m
  | .otherException m => "Error getting AI response: " ++ m

/-- What one call of get_ai_response produced: the returned Python value
(a string on every path except the raw text extraction), the assembled
user message, the record store after the call, and how many network
calls were made. -/
structure AIResult where
  result : Json
  prompt : String
  store : RecordStore
  networkCalls : Nat

/-- Lines 54-146: the whole of get_ai_response.  The question and the
patient identifier are the Python values the handlers pass in; apiKey
is os.getenv GEMINI_API_KEY; outcome stands for the network.  Both
except clauses catch, so the function always returns a value. -/
def get_ai_response (apiKey : Option String) (user_question patient_id : Json)
    (store : RecordStore) (outcome : UpstreamOutcome) : AIResult :=
  let health_records := truncateRecord (storeGetPy store patient_id)
  let user_message := buildUserMessage health_records (pyStr user_question)
  if apiKey.getD "" = "" then
    ⟨.str missingKeyMsg, user_message, store, 0⟩
  else
    match outcome with
    | .postRaises e => ⟨.str (handleExc e), user_message, store, 1⟩
    | .response r =>
      match handleResponse (requestUrl (apiKey.getD "")) r with
      | .ok v => ⟨v, user_message, store, 1⟩
      | .error e => ⟨.str (handleExc e), user_message, store, 1⟩

/-- Lines 54-146 with the record lookup of line 58 modelled faithfully:
that lookup sits outside the try block of line 106, so the TypeError it
raises on an unhashable patient_id propagates to the caller instead of
being caught.  When the lookup does not raise, its value is exactly
what storeGetPy computes (storeGetPyChecked_agrees), so the call
proceeds as get_ai_response. -/
def get_ai_response_checked (apiKey : Option String)
    (user_question patient_id : Json) (store : RecordStore)
    (outcome : UpstreamOutcome) : Except PyExc AIResult :=
  match storeGetPyChecked store patient_id with
  | .error e => .error e
  | .ok _ => .ok (get_ai_response apiKey user_question patient_id store outcome)

/-! The request handlers (lines 161-215). -/

/-- What a handler produced: HTTP status, JSON body, and how many times
it invoked get_ai_response. -/
structure HandlerResult where
  status : Nat
  body : Json
  inferCalls : Nat

/-- The fixed analysis template (lines 196-201). -/
def analysisPrompt : String :=
  "Please analyze this patient's health record and provide:\n1. Summary of their current health\n2. Any patterns, risks, or trends noticed\n3. Recommendations or lifestyle improvements\n4. Questions the patient should ask their doctor\n"

/-- Lines 161-187: the POST /api/ask handler over a parsed request
body.  A non-object body makes data.get raise, which the except clause
turns into a 500 response; the fixed error text below stands in for the
str() of that AttributeError. -/
def ask_question (apiKey : Option String) (store : RecordStore)
    (outcome : UpstreamOutcome) (reqBody : Json) : HandlerResult :=
  match reqBody with
  | .obj fs =>
    let question := (lookupField fs "question").getD .null
    let patient_id := (lookupField fs "patient_id").getD (.str "test_patient")
    if question.truthy then
      let r := get_ai_response apiKey question patient_id store outcome
      ⟨200, .obj [("success", .bool true), ("question", question),
        ("answer", r.result), ("patient_id", patient_id)], 1⟩
    else
      ⟨400, .obj [("error", .str "Question is required")], 0⟩
  | _ =>
      ⟨500, .obj [("success", .bool false),
        ("error", .str "object has no attribute get")], 0⟩

/-- Lines 189-215: the POST /api/analyze handler over a parsed request
body. -/
def analyze_health (apiKey : Option String) (store : RecordStore)
    (outcome : UpstreamOutcome) (reqBody : Json) : HandlerResult :=
  match reqBody with
  | .obj fs =>
    let patient_id := (lookupField fs "patient_id").getD (.str "test_patient")
    let r := get_ai_response apiKey (.str analysisPrompt) patient_id store outcome
    ⟨200, .obj [("success", .bool true), ("analysis", r.result),
      ("patient_id", patient_id)], 1⟩
  | _ =>
      ⟨500, .obj [("success", .bool false),
        ("error", .str "object has no attribute get")], 0⟩

/-! Startup ingestion (lines 32-49). -/

/-- The outcome of reading the PDF: PdfReader itself raises, or each
page's extract_text either yields text or raises. -/
inductive PdfOutcome where
  | unreadable (msg : String) : PdfOutcome
  | pages (ps : List (Except String String)) : PdfOutcome

/-- Lines 36-38: the text accumulation loop; stops (raises) at the first
page whose extraction raises. -/
def extractPages : String → List (Except String String) → Except String String
  | acc, [] => .ok acc
  | acc, .ok t :: rest => extractPages (acc ++ t) rest
  | _, .error e :: _ => .error e

/-- Lines 32-46: load_pdf_record.  The try block stores the full text
under test_patient only when every step succeeded; the except clause
swallows every failure, leaving the store untouched. -/
def load_pdf_record (store : RecordStore) (outcome : PdfOutcome) : RecordStore :=
  match outcome with
  | .unreadable _ => store
  | .pages ps =>
    match extractPages "" ps with
    | .ok text => storeSet store "test_patient" text
    | .error _ => store

/-- Whether one page extraction raised. -/
def isErrResult : Except String String → Bool
  | .error _ => true
  | .ok _ => false

/-- Whether the ingestion outcome makes the try block raise somewhere. -/
def pdfFails : PdfOutcome → Bool
  | .unreadable _ => true
  | .pages ps => ps.any isErrResult

/-! Derived observations used to state the claims. -/

/-- The value the success path of parseData extracts from a parsed
body, when every access succeeds: candidates present and truthy, first
element an object, its content.parts truthy, parts[0] an object with a
text key.  None on every other body. -/
def bodyTextValue (data : Json) : Option Json :=
  match data.get1 "candidates" with
  | .error _ => none
  | .ok none => none
  | .ok (some c) =>
    if c.truthy then
      match c.index0 with
      | .error _ => none
      | .ok candidate =>
        match candidate.getD2 "content" (.obj []) with
        | .error _ => none
        | .ok content =>
          match content.getD2 "parts" (.arr []) with
          | .error _ => none
          | .ok parts =>
            if parts.truthy then
              match parts.index0 with
              | .error _ => none
              | .ok (.obj pfs) => lookupField pfs "text"
              | .ok _ => none
            else none
    else none

/-- Substring containment on strings, by code points. -/
def isSubstring (needle hay : String) : Bool :=
  (List.range (hay.data.length + 1)).any
    fun i => needle.data.isPrefixOf (hay.data.drop i)

/-- Whether a parts[0] value is a dict with a text key, the usable-text
condition of line 129. -/
def hasTextField : Json → Bool
  | .obj pfs => (lookupField pfs "text").isSome
  | _ => false

/-! Concrete response bodies used to instantiate the claims. -/

/-- A well-shaped success body whose single text part holds v. -/
def textSuccessBody (v : Json) : Json :=
  .obj [("candidates",
    .arr [.obj [("content", .obj [("parts", .arr [.obj [("text", v)]])])]])]

/-- A body whose single candidate carries only a finishReason. -/
def finishReasonBody (fr : String) : Json :=
  .obj [("candidates", .arr [.obj [("finishReason", .str fr)]])]

/-- A body with no candidates field, only error.message. -/
def errorMessageBody (msg : String) : Json :=
  .obj [("error", .obj [("message", .str msg)])]

/-- A record text of 5001 identical characters, one past the
truncation threshold. -/
def longRecord : String :=
  String.mk (List.replicate 5001 'a')

/-! Helper lemmas shared by the claim theorems. -/

theorem get_ai_response_prompt (apiKey : Option String) (q pid : Json)
    (store : RecordStore) (outcome : UpstreamOutcome) :
    (get_ai_response apiKey q pid store outcome).prompt =
      buildUserMessage (truncateRecord (storeGetPy store pid)) (pyStr q) := by
  unfold get_ai_response
  split
  · rfl
  · cases outcome with
    | postRaises e => rfl
    | response r =>
      simp only
      split <;> rfl

theorem get_ai_response_store_eq (apiKey : Option String) (q pid : Json)
    (store : RecordStore) (outcome : UpstreamOutcome) :
    (get_ai_response apiKey q pid store outcome).store = store := by
  unfold get_ai_response
  split
  · rfl
  · cases outcome with
    | postRaises e => rfl
    | response r =>
      simp only
      split <;> rfl

theorem storeGetPyChecked_agrees (store : RecordStore) (pid : Json)
    (s : String) (h : storeGetPyChecked store pid = .ok s) :
    storeGetPy store pid = s := by
  cases pid <;> simp_all [storeGetPyChecked, storeGetPy]

theorem isSubstring_of_middle (a s b : String) :
    isSubstring s (a ++ s ++ b) = true := by
  unfold isSubstring
  rw [List.any_eq_true]
  refine ⟨a.data.length, List.mem_range.mpr ?_, ?_⟩
  · rw [String.data_append, String.data_append, List.length_append,
      List.length_append]
    omega
  · rw [String.data_append, String.data_append, List.append_assoc,
      List.drop_left, List.isPrefixOf_iff_prefix]
    exact List.prefix_append s.data b.data

theorem isSubstring_append_right (a s : String) :
    isSubstring s (a ++ s) = true := by
  unfold isSubstring
  rw [List.any_eq_true]
  refine ⟨a.data.length, List.mem_range.mpr ?_, ?_⟩
  · rw [String.data_append, List.length_append]
    omega
  · rw [String.data_append, List.drop_left, List.isPrefixOf_iff_prefix]

theorem raise_for_status_lt (url : String) (r : HttpResponse)
    (h : r.status < 400) : raise_for_status url r = .ok () := by
  unfold raise_for_status
  rw [if_neg (by omega), if_neg (by omega)]

theorem get_ai_response_result_of_body (k : String) (hk : k ≠ "")
    (q pid : Json) (store : RecordStore) (r : HttpResponse)
    (hs : r.status < 400) (data : Json) (hd : r.jsonBody = some data) :
    (get_ai_response (some k) q pid store (.response r)).result =
      (match parseData r.status data with
        | .ok v => v
        | .error e => .str (handleExc e)) := by
  unfold get_ai_response handleResponse
  rw [Option.getD_some, if_neg hk]
  simp only
  rw [raise_for_status_lt _ _ hs,
    show responseJson r = .ok data by rw [responseJson, hd]]
  cases hp : parseData r.status data <;> simp [hp]

theorem errorPath_eq (status : Nat) (bfs : List (String × Json)) (m : Json)
    (h400 : ¬ status = 400)
    (hmsg : ((lookupField bfs "error").getD (.obj [])).getD2 "message"
      (.str "Unknown error or blocked content.") = .ok m) :
    errorPath status (.obj bfs) =
      .ok (.str ("Gemini API Error: " ++ pyStr m)) := by
  unfold errorPath
  rw [show (Json.obj bfs).getD2 "error" (.obj []) =
    .ok ((lookupField bfs "error").getD (.obj [])) from rfl]
  dsimp only
  rw [hmsg]
  dsimp only
  rw [if_neg h400]

theorem parseData_no_candidates (status : Nat) (bfs : List (String × Json))
    (hcand : lookupField bfs "candidates" = none) :
    parseData status (.obj bfs) = errorPath status (.obj bfs) := by
  unfold parseData
  dsimp only [Json.get1]
  rw [hcand]

theorem parseData_first_candidate (status : Nat)
    (bfs cfs : List (String × Json)) (rest : List Json)
    (hcand : lookupField bfs "candidates" = some (.arr (.obj cfs :: rest))) :
    parseData status (.obj bfs) =
      (match ((lookupField cfs "content").getD (.obj [])).getD2 "parts"
          (.arr []) with
        | .error e => .error e
        | .ok parts =>
          if parts.truthy then
            match parts.index0 with
            | .error e => .error e
            | .ok (.obj pfs) =>
              match lookupField pfs "text" with
              | some v => .ok v
              | none => candidateFallback (.obj cfs) (.obj bfs)
            | .ok _ => candidateFallback (.obj cfs) (.obj bfs)
          else candidateFallback (.obj cfs) (.obj bfs)) := by
  unfold parseData
  dsimp only [Json.get1]
  rw [hcand]
  dsimp only
  simp only [Json.truthy, List.isEmpty_cons, Bool.not_false, if_true]
  dsimp only [Json.index0, Json.getD2]

/-! Claim theorems. -/

/-- C1: for every record text retrieved for a patient, the user message
assembled by get_ai_response embeds the text verbatim between the fixed
header and the question section when its length is at most 5000, and
embeds exactly the first 5000 characters followed by the fixed
truncation note when it is longer; nothing of the text past position
5000 enters the message. -/
theorem C1_prompt_embeds_record (apiKey : Option String) (q pid : Json)
    (store : RecordStore) (outcome : UpstreamOutcome) :
    ((storeGetPy store pid).length ≤ 5000 →
      (get_ai_response apiKey q pid store outcome).prompt =
        recordsHeader ++ storeGetPy store pid ++ questionHeader ++ pyStr q ++
          promptFooter) ∧
    ((storeGetPy store pid).length > 5000 →
      (get_ai_response apiKey q pid store outcome).prompt =
        recordsHeader ++ (storeGetPy store pid).take 5000 ++ truncationNote ++
          questionHeader ++ pyStr q ++ promptFooter) := by
  rw [get_ai_response_prompt]
  constructor
  · intro h
    rw [truncateRecord, if_neg (by omega)]
    rfl
  · intro h
    rw [truncateRecord, if_pos h]
    simp [buildUserMessage, String.append_assoc]

/-- Witness for C1 at a short record and at the 5001-character record. -/
theorem C1_prompt_embeds_record_witness :
    (get_ai_response none (.str "q") (.str "test_patient")
        [("test_patient", "hi")] (.postRaises (.requestException "x"))).prompt =
      recordsHeader ++ "hi" ++ questionHeader ++ "q" ++ promptFooter ∧
    (get_ai_response none (.str "q") (.str "test_patient")
        [("test_patient", longRecord)] (.postRaises (.requestException "x"))).prompt =
      recordsHeader ++ longRecord.take 5000 ++ truncationNote ++
        questionHeader ++ "q" ++ promptFooter := by
  constructor
  · exact (C1_prompt_embeds_record none (.str "q") (.str "test_patient")
      [("test_patient", "hi")] (.postRaises (.requestException "x"))).1 (by decide)
  · refine (C1_prompt_embeds_record none (.str "q") (.str "test_patient")
      [("test_patient", longRecord)] (.postRaises (.requestException "x"))).2 ?_
    show (List.replicate 5001 'a').length > 5000
    rw [List.length_replicate]
    omega

/-- C5: with no API key configured, get_ai_response returns the fixed
missing-credential error string for every question, patient identifier,
store and upstream outcome, and makes zero network calls. -/
theorem C5_missing_key (q pid : Json) (store : RecordStore)
    (outcome : UpstreamOutcome) :
    (get_ai_response none q pid store outcome).result = .str missingKeyMsg ∧
    (get_ai_response none q pid store outcome).networkCalls = 0 :=
  ⟨rfl, rfl⟩

/-- C6: the record lookup of line 58 returns the fixed sentinel for
every identifier absent from the store and the stored text for every
identifier present; it is a total function, so it never throws. -/
theorem C6_store_lookup (store : RecordStore) (pid : String) :
    (lookupStr store pid = none →
      storeGet store pid = "No health records found.") ∧
    (∀ t, lookupStr store pid = some t → storeGet store pid = t) := by
  constructor
  · intro h
    simp [storeGet, h]
  · intro t h
    simp [storeGet, h]

/-- Witness for C6: an absent and a present identifier. -/
theorem C6_store_lookup_witness :
    storeGet [("test_patient", "rec")] "absent" = "No health records found." ∧
    storeGet [("test_patient", "rec")] "test_patient" = "rec" :=
  ⟨(C6_store_lookup [("test_patient", "rec")] "absent").1 rfl,
    (C6_store_lookup [("test_patient", "rec")] "test_patient").2 "rec" rfl⟩

/-- C8: a POST /api/ask whose JSON body has no truthy question field is
answered with status 400 and the fixed error body, without invoking
get_ai_response. -/
theorem C8_question_required (apiKey : Option String) (store : RecordStore)
    (outcome : UpstreamOutcome) (fs : List (String × Json))
    (h : ((lookupField fs "question").getD .null).truthy = false) :
    ask_question apiKey store outcome (.obj fs) =
      ⟨400, .obj [("error", .str "Question is required")], 0⟩ := by
  unfold ask_question
  simp only [h]
  rfl

/-- Witness for C8 at the empty JSON object body. -/
theorem C8_question_required_witness :
    ask_question none [] (.postRaises (.requestException "x")) (.obj []) =
      ⟨400, .obj [("error", .str "Question is required")], 0⟩ :=
  C8_question_required none [] (.postRaises (.requestException "x")) [] rfl

/-- C3: for every upstream response whose body is an object whose
candidates field holds a non-empty array whose first candidate object
reaches content.parts with parts[0].text = x, get_ai_response returns
exactly x, for every configured key, question, patient identifier,
store, extra body fields, extra candidates and extra parts. -/
theorem C3_success_text (k : String) (hk : k ≠ "") (x : String)
    (q pid : Json) (store : RecordStore) (reason : String)
    (bfs cfs pfs : List (String × Json)) (rest prest : List Json)
    (hcand : lookupField bfs "candidates" = some (.arr (.obj cfs :: rest)))
    (hparts : ((lookupField cfs "content").getD (.obj [])).getD2 "parts"
      (.arr []) = .ok (.arr (.obj pfs :: prest)))
    (htext : lookupField pfs "text" = some (.str x)) :
    (get_ai_response (some k) q pid store
        (.response ⟨200, reason, some (.obj bfs)⟩)).result = .str x := by
  rw [get_ai_response_result_of_body k hk q pid store _ (by norm_num) _ rfl,
    parseData_first_candidate 200 bfs cfs rest hcand, hparts]
  dsimp only
  simp only [Json.truthy, List.isEmpty_cons, Bool.not_false, if_true]
  dsimp only [Json.index0]
  rw [htext]

/-- Witness for C3 with text X in a minimal well-shaped body. -/
theorem C3_success_text_witness :
    (get_ai_response (some "k") (.str "q") (.str "test_patient") []
        (.response ⟨200, "OK", some (textSuccessBody (.str "X"))⟩)).result =
      .str "X" :=
  C3_success_text "k" (by decide) "X" (.str "q") (.str "test_patient") [] "OK"
    [("candidates", .arr [.obj [("content",
      .obj [("parts", .arr [.obj [("text", .str "X")]])])]])]
    [("content", .obj [("parts", .arr [.obj [("text", .str "X")]])])]
    [("text", .str "X")] [] [] rfl rfl rfl

/-- C4: for every upstream response whose first candidate is an object
that reaches the parts check but has no usable text part (parts falsy,
or parts[0] not a dict with a text key), get_ai_response returns the
diagnostic string embedding the candidate's finishReason (Unknown when
absent) and the re-serialized response body; that finishReason and the
serialized body are substrings of the result. -/
theorem C4_no_text_part (k : String) (hk : k ≠ "") (q pid : Json)
    (store : RecordStore) (reason : String)
    (bfs cfs : List (String × Json)) (rest : List Json) (parts : Json)
    (hcand : lookupField bfs "candidates" = some (.arr (.obj cfs :: rest)))
    (hparts : ((lookupField cfs "content").getD (.obj [])).getD2 "parts"
      (.arr []) = .ok parts)
    (hno : parts.truthy = false ∨
      ∃ p0, parts.index0 = .ok p0 ∧ hasTextField p0 = false) :
    (get_ai_response (some k) q pid store
        (.response ⟨200, reason, some (.obj bfs)⟩)).result =
      .str (noTextMsg ((lookupField cfs "finishReason").getD (.str "Unknown"))
        (.obj bfs)) ∧
    isSubstring (pyStr ((lookupField cfs "finishReason").getD (.str "Unknown")))
      (noTextMsg ((lookupField cfs "finishReason").getD (.str "Unknown"))
        (.obj bfs)) = true ∧
    isSubstring (jsonDumps 0 (.obj bfs))
      (noTextMsg ((lookupField cfs "finishReason").getD (.str "Unknown"))
        (.obj bfs)) = true := by
  refine ⟨?_, ?_, ?_⟩
  · rw [get_ai_response_result_of_body k hk q pid store _ (by norm_num) _ rfl,
      parseData_first_candidate 200 bfs cfs rest hcand, hparts]
    dsimp only
    cases hpt : parts.truthy with
    | false =>
      simp only [hpt, Bool.false_eq_true, if_false]
      rfl
    | true =>
      simp only [hpt, if_true]
      rcases hno with hf | ⟨p0, hp0, hnt⟩
      · rw [hf] at hpt
        exact (Bool.false_ne_true hpt).elim
      · rw [hp0]
        cases p0 with
        | obj pfs =>
          dsimp only
          cases hl2 : lookupField pfs "text" with
          | none => rfl
          | some v0 =>
            exfalso
            have ht2 : hasTextField (.obj pfs) =
              (lookupField pfs "text").isSome := rfl
            rw [ht2, hl2] at hnt
            simp at hnt
        | null => rfl
        | bool b => rfl
        | num n => rfl
        | str s => rfl
        | arr l => rfl
  · unfold noTextMsg
    rw [String.append_assoc]
    exact isSubstring_of_middle _ _ _
  · unfold noTextMsg
    exact isSubstring_append_right _ _

/-- Witness for C4 with finishReason SAFETY and no parts at all: the
result embeds SAFETY. -/
theorem C4_no_text_part_witness :
    (get_ai_response (some "k") (.str "q") (.str "test_patient") []
        (.response ⟨200, "OK", some (finishReasonBody "SAFETY")⟩)).result =
      .str (noTextMsg (.str "SAFETY") (finishReasonBody "SAFETY")) ∧
    isSubstring "SAFETY"
      (noTextMsg (.str "SAFETY") (finishReasonBody "SAFETY")) = true :=
  ⟨(C4_no_text_part "k" (by decide) (.str "q") (.str "test_patient") [] "OK"
      [("candidates", .arr [.obj [("finishReason", .str "SAFETY")]])]
      [("finishReason", .str "SAFETY")] [] (.arr [])
      rfl rfl (Or.inl rfl)).1,
    (C4_no_text_part "k" (by decide) (.str "q") (.str "test_patient") [] "OK"
      [("candidates", .arr [.obj [("finishReason", .str "SAFETY")]])]
      [("finishReason", .str "SAFETY")] [] (.arr [])
      rfl rfl (Or.inl rfl)).2.1⟩

/-- C2 as stated is false: a response with HTTP status 400 never
reaches the error.message branch, because response.raise_for_status()
raises HTTPError for every 4xx status; at status 400 with
error.message = bad request the function returns the transport-error
string, which is not prefixed with the status code's branch text and
does not contain bad request. -/
theorem C2_counterexample :
    (get_ai_response (some "k") (.str "q") (.str "test_patient") []
        (.response ⟨400, "Bad Request", some (errorMessageBody "bad request")⟩)).result =
      .str ("Error connecting to Gemini API: 400 Client Error: Bad Request for url: " ++
        requestUrl "k") ∧
    isSubstring "bad request"
      ("Error connecting to Gemini API: 400 Client Error: Bad Request for url: " ++
        requestUrl "k") = false := by
  constructor
  · rfl
  · decide

/-- C2 amended: for every upstream response with status below 400 whose
parsed body is an object with no candidates field, get_ai_response
returns the Error string embedding error.message when present and the
default message when absent; a response with status 400 instead raises
at raise_for_status and yields the transport-error string regardless of
its body, so the 400-prefixed branch of line 137 is unreachable. -/
theorem C2_no_candidates (k : String) (hk : k ≠ "") (status : Nat)
    (hs : status < 400) (q pid : Json) (store : RecordStore)
    (reason : String) (bfs : List (String × Json)) (m : Json)
    (hcand : lookupField bfs "candidates" = none)
    (hmsg : ((lookupField bfs "error").getD (.obj [])).getD2 "message"
      (.str "Unknown error or blocked content.") = .ok m) :
    (get_ai_response (some k) q pid store
        (.response ⟨status, reason, some (.obj bfs)⟩)).result =
      .str ("Gemini API Error: " ++ pyStr m) ∧
    ∀ body : Option Json,
      (get_ai_response (some k) q pid store
          (.response ⟨400, reason, body⟩)).result =
        .str ("Error connecting to Gemini API: " ++
          (toString 400 ++ " Client Error: " ++ reason ++ " for url: " ++
            requestUrl k)) := by
  constructor
  · rw [get_ai_response_result_of_body k hk q pid store _ hs _ rfl,
      parseData_no_candidates status bfs hcand,
      errorPath_eq status bfs m (by omega) hmsg]
  · intro body
    unfold get_ai_response
    rw [Option.getD_some, if_neg hk]
    rfl

/-- Witness for C2 amended at status 200: error.message present, and
also the default message when the body is the empty object. -/
theorem C2_no_candidates_witness :
    (get_ai_response (some "k") (.str "q") (.str "test_patient") []
        (.response ⟨200, "OK", some (errorMessageBody "bad request")⟩)).result =
      .str ("Gemini API Error: " ++ "bad request") ∧
    (get_ai_response (some "k") (.str "q") (.str "test_patient") []
        (.response ⟨200, "OK", some (.obj [])⟩)).result =
      .str ("Gemini API Error: " ++ "Unknown error or blocked content.") :=
  ⟨(C2_no_candidates "k" (by decide) 200 (by omega) (.str "q")
      (.str "test_patient") [] "OK"
      [("error", .obj [("message", .str "bad request")])]
      (.str "bad request") rfl rfl).1,
    (C2_no_candidates "k" (by decide) 200 (by omega) (.str "q")
      (.str "test_patient") [] "OK" []
      (.str "Unknown error or blocked content.") rfl rfl).1⟩

theorem extractPages_of_any_error (ps : List (Except String String))
    (h : ps.any isErrResult = true) :
    ∀ acc, ∃ e, extractPages acc ps = .error e := by
  induction ps with
  | nil => simp at h
  | cons hd tl ih =>
    intro acc
    cases hd with
    | ok t =>
      rw [List.any_cons] at h
      simp only [isErrResult] at h
      exact ih (by simpa using h) (acc ++ t)
    | error e => exact ⟨e, rfl⟩

/-- C7: whenever startup ingestion fails at any point (the document is
unreadable or some page extraction raises), load_pdf_record returns
the store unchanged, so a store with no test_patient entry still has
none; no partial text is stored and no exception propagates (the
function is total). -/
theorem C7_ingestion_failure (store : RecordStore) (outcome : PdfOutcome)
    (h : pdfFails outcome = true) :
    load_pdf_record store outcome = store ∧
    (lookupStr store "test_patient" = none →
      lookupStr (load_pdf_record store outcome) "test_patient" = none) := by
  have hmain : load_pdf_record store outcome = store := by
    cases outcome with
    | unreadable m => rfl
    | pages ps =>
      obtain ⟨e, he⟩ :=
        extractPages_of_any_error ps (by simpa [pdfFails] using h) ""
      simp [load_pdf_record, he]
  exact ⟨hmain, fun hn => by rw [hmain]; exact hn⟩

/-- Witness for C7: a failing second page on an empty store. -/
theorem C7_ingestion_failure_witness :
    load_pdf_record [] (.pages [.ok "page1", .error "boom"]) = [] ∧
    lookupStr (load_pdf_record [] (.pages [.ok "page1", .error "boom"]))
      "test_patient" = none :=
  ⟨(C7_ingestion_failure [] (.pages [.ok "page1", .error "boom"]) (by decide)).1,
    (C7_ingestion_failure [] (.pages [.ok "page1", .error "boom"])
      (by decide)).2 rfl⟩

/-- C9: whenever the ask handler reaches the inference call (the body
is an object with a truthy question), and always for the analyze
handler on an object body, the handler responds with HTTP 200, success
true, and the InferenceResult placed verbatim in the answer
(respectively analysis) field, for every upstream outcome, so an
inference error is never surfaced as an HTTP failure status. -/
theorem C9_success_envelope (apiKey : Option String) (store : RecordStore)
    (outcome : UpstreamOutcome) (fs : List (String × Json)) (q : Json)
    (hq : lookupField fs "question" = some q) (ht : q.truthy = true) :
    ask_question apiKey store outcome (.obj fs) =
      ⟨200, .obj [("success", .bool true), ("question", q),
        ("answer", (get_ai_response apiKey q
          ((lookupField fs "patient_id").getD (.str "test_patient"))
          store outcome).result),
        ("patient_id",
          (lookupField fs "patient_id").getD (.str "test_patient"))], 1⟩ ∧
    analyze_health apiKey store outcome (.obj fs) =
      ⟨200, .obj [("success", .bool true),
        ("analysis", (get_ai_response apiKey (.str analysisPrompt)
          ((lookupField fs "patient_id").getD (.str "test_patient"))
          store outcome).result),
        ("patient_id",
          (lookupField fs "patient_id").getD (.str "test_patient"))], 1⟩ := by
  constructor
  · unfold ask_question
    simp [hq, ht]
  · rfl

/-- Witness for C9: a question against a failing upstream still yields
a 200 envelope carrying the error string. -/
theorem C9_success_envelope_witness :
    ask_question none [] (.postRaises (.requestException "conn refused"))
        (.obj [("question", .str "hi")]) =
      ⟨200, .obj [("success", .bool true), ("question", .str "hi"),
        ("answer", (get_ai_response none (.str "hi")
          ((lookupField [("question", Json.str "hi")] "patient_id").getD
            (.str "test_patient"))
          [] (.postRaises (.requestException "conn refused"))).result),
        ("patient_id",
          (lookupField [("question", Json.str "hi")] "patient_id").getD
            (.str "test_patient"))], 1⟩ :=
  (C9_success_envelope none [] (.postRaises (.requestException "conn refused"))
    [("question", .str "hi")] (.str "hi") rfl rfl).1

theorem candidateFallback_ok_isStr (candidate data v : Json)
    (h : candidateFallback candidate data = .ok v) : v.isStr = true := by
  unfold candidateFallback at h
  split at h
  · simp at h
  · simp only [Except.ok.injEq] at h
    rw [← h]
    rfl

theorem errorPath_ok_isStr (status : Nat) (data v : Json)
    (h : errorPath status data = .ok v) : v.isStr = true := by
  unfold errorPath at h
  split at h
  · simp at h
  · split at h
    · simp at h
    · split at h <;> (simp only [Except.ok.injEq] at h; rw [← h]; rfl)

theorem parseData_ok_shape (status : Nat) (data v : Json)
    (h : parseData status data = .ok v) :
    v.isStr = true ∨ bodyTextValue data = some v := by
  unfold parseData at h
  cases hg : data.get1 "candidates" with
  | error e => rw [hg] at h; simp at h
  | ok candOpt =>
    rw [hg] at h
    cases candOpt with
    | none => exact Or.inl (errorPath_ok_isStr _ _ _ h)
    | some c =>
      cases hc : c.truthy with
      | false =>
        simp only [hc, Bool.false_eq_true, if_false] at h
        exact Or.inl (errorPath_ok_isStr _ _ _ h)
      | true =>
        simp only [hc, if_true] at h
        cases hi : c.index0 with
        | error e => rw [hi] at h; simp at h
        | ok candidate =>
          rw [hi] at h
          dsimp only at h
          cases hcon : candidate.getD2 "content" (.obj []) with
          | error e => rw [hcon] at h; simp at h
          | ok content =>
            rw [hcon] at h
            dsimp only at h
            cases hpa : content.getD2 "parts" (.arr []) with
            | error e => rw [hpa] at h; simp at h
            | ok parts =>
              rw [hpa] at h
              dsimp only at h
              cases hpt : parts.truthy with
              | false =>
                simp only [hpt, Bool.false_eq_true, if_false] at h
                exact Or.inl (candidateFallback_ok_isStr _ _ _ h)
              | true =>
                simp only [hpt, if_true] at h
                cases hp : parts.index0 with
                | error e => rw [hp] at h; simp at h
                | ok p0 =>
                  rw [hp] at h
                  cases p0 with
                  | obj pfs =>
                    dsimp only at h
                    cases hl : lookupField pfs "text" with
                    | none =>
                      rw [hl] at h
                      exact Or.inl (candidateFallback_ok_isStr _ _ _ h)
                    | some v0 =>
                      rw [hl] at h
                      right
                      unfold bodyTextValue
                      rw [hg]
                      dsimp only
                      simp only [hc, if_true]
                      rw [hi]
                      dsimp only
                      rw [hcon]
                      dsimp only
                      rw [hpa]
                      dsimp only
                      simp only [hpt, if_true]
                      rw [hp]
                      dsimp only
                      rw [hl]
                      simp only [Except.ok.injEq] at h
                      rw [h]
                  | null =>
                    dsimp only at h
                    exact Or.inl (candidateFallback_ok_isStr _ _ _ h)
                  | bool b =>
                    dsimp only at h
                    exact Or.inl (candidateFallback_ok_isStr _ _ _ h)
                  | num n =>
                    dsimp only at h
                    exact Or.inl (candidateFallback_ok_isStr _ _ _ h)
                  | str s =>
                    dsimp only at h
                    exact Or.inl (candidateFallback_ok_isStr _ _ _ h)
                  | arr l =>
                    dsimp only at h
                    exact Or.inl (candidateFallback_ok_isStr _ _ _ h)

theorem get_ai_response_result_shape (apiKey : Option String) (q pid : Json)
    (store : RecordStore) (outcome : UpstreamOutcome) :
    (get_ai_response apiKey q pid store outcome).result.isStr = true ∨
      ∃ r data, outcome = .response r ∧ r.jsonBody = some data ∧
        bodyTextValue data =
          some (get_ai_response apiKey q pid store outcome).result := by
  by_cases hk : apiKey.getD "" = ""
  · left
    unfold get_ai_response
    rw [if_pos hk]
    rfl
  · cases outcome with
    | postRaises e =>
      left
      unfold get_ai_response
      rw [if_neg hk]
      rfl
    | response r =>
      unfold get_ai_response
      rw [if_neg hk]
      simp only
      cases hh : handleResponse (requestUrl (Option.getD apiKey "")) r with
      | error e => left; rfl
      | ok v =>
        unfold handleResponse at hh
        cases hrs : raise_for_status (requestUrl (Option.getD apiKey "")) r with
        | error e => rw [hrs] at hh; simp at hh
        | ok u =>
          rw [hrs] at hh
          cases hj : responseJson r with
          | error e => rw [hj] at hh; simp at hh
          | ok data =>
            rw [hj] at hh
            have hjd : r.jsonBody = some data := by
              unfold responseJson at hj
              cases hb : r.jsonBody with
              | some d => rw [hb] at hj; simpa using hj
              | none => rw [hb] at hj; simp at hj
            rcases parseData_ok_shape r.status data v hh with hstr | hbody
            · exact Or.inl hstr
            · exact Or.inr ⟨r, data, rfl, hjd, hbody⟩

/-- C10 amended: for every question, every hashable patient identifier,
every store and every upstream outcome, get_ai_response returns a value
without propagating an exception and leaves the record store unchanged;
its result is a Python string on every path except the raw text
extraction, which returns candidates[0].content.parts[0].text of the
upstream body as-is (any JSON value is passed through untouched).  For
an unhashable (list/dict) patient identifier the record lookup of line
58 raises TypeError outside the try block, and that exception
propagates to the caller. -/
theorem C10_interface_totality (apiKey : Option String) (q pid : Json)
    (store : RecordStore) (outcome : UpstreamOutcome) :
    (hashableKey pid = true →
      get_ai_response_checked apiKey q pid store outcome =
        .ok (get_ai_response apiKey q pid store outcome) ∧
      (get_ai_response apiKey q pid store outcome).store = store ∧
      ((get_ai_response apiKey q pid store outcome).result.isStr = true ∨
        ∃ r data, outcome = .response r ∧ r.jsonBody = some data ∧
          bodyTextValue data =
            some (get_ai_response apiKey q pid store outcome).result)) ∧
    (hashableKey pid = false →
      ∃ e, get_ai_response_checked apiKey q pid store outcome = .error e) := by
  constructor
  · intro hh
    refine ⟨?_, get_ai_response_store_eq apiKey q pid store outcome,
      get_ai_response_result_shape apiKey q pid store outcome⟩
    unfold get_ai_response_checked
    cases pid with
    | str s => rfl
    | null => rfl
    | bool b => rfl
    | num n => rfl
    | arr l => simp [hashableKey] at hh
    | obj fs => simp [hashableKey] at hh
  · intro hh
    unfold get_ai_response_checked
    cases pid with
    | arr l => exact ⟨.otherException "unhashable type: 'list'", rfl⟩
    | obj fs => exact ⟨.otherException "unhashable type: 'dict'", rfl⟩
    | str s => simp [hashableKey] at hh
    | null => simp [hashableKey] at hh
    | bool b => simp [hashableKey] at hh
    | num n => simp [hashableKey] at hh

/-- Witness for C10 amended: a string identifier proceeds without an
exception, a list identifier makes the call raise. -/
theorem C10_interface_totality_witness :
    get_ai_response_checked (some "k") (.str "q") (.str "test_patient") []
        (.postRaises (.requestException "boom")) =
      .ok (get_ai_response (some "k") (.str "q") (.str "test_patient") []
        (.postRaises (.requestException "boom"))) ∧
    (∃ e, get_ai_response_checked (some "k") (.str "q") (.arr []) []
        (.postRaises (.requestException "boom")) = .error e) :=
  ⟨((C10_interface_totality (some "k") (.str "q") (.str "test_patient") []
      (.postRaises (.requestException "boom"))).1 rfl).1,
    (C10_interface_totality (some "k") (.str "q") (.arr []) []
      (.postRaises (.requestException "boom"))).2 rfl⟩

/-- C10 as stated is false on one point: when the upstream body's text
field holds a non-string JSON value, get_ai_response returns that value
as-is, not a string. -/
theorem C10_counterexample :
    (get_ai_response (some "k") (.str "q") (.str "test_patient") []
        (.response ⟨200, "OK", some (textSuccessBody (.num 5))⟩)).result =
      .num 5 ∧
    (get_ai_response (some "k") (.str "q") (.str "test_patient") []
        (.response ⟨200, "OK", some (textSuccessBody (.num 5))⟩)).result.isStr =
      false :=
  ⟨rfl, rfl⟩

end HealthAssistant
